import Mathlib

/-!
Verification of the PSGAN makeup-transfer generator (`makeup/net.py`).

The network is shallowly embedded over exact real arithmetic: a rank-4 tensor
of shape (n, c, h, w) is a function `Fin n → Fin c → Fin h → Fin w → ℝ`, and
every PyTorch operation used by the generator (`Conv2d`, strided and transposed
convolutions, `InstanceNorm2d`, `ReLU`, `Tanh`, nearest-neighbour
`F.interpolate`, `softmax`, `bmm`, sparse tensors) is translated to an explicit
pointwise definition.  Learned parameters are fields of the module structures;
forward passes are pure functions of the parameters and the inputs.
-/

/-- A rank-4 real tensor of shape `(n, c, h, w)`, indexed as
`x[batch][channel][row][column]`. -/
abbrev Tensor4 (n c h w : ℕ) : Type := Fin n → Fin c → Fin h → Fin w → ℝ

/-- Zero-padded lookup: the value of `x[b][ci][i][j]` for integer spatial
coordinates, `0` outside the spatial extent.  This models the implicit zero
padding of `nn.Conv2d(..., padding=p)`. -/
noncomputable def getPad {n c h w : ℕ} (x : Tensor4 n c h w) (b : Fin n) (ci : Fin c)
    (i j : ℤ) : ℝ :=
  if hij : 0 ≤ i ∧ i < (h : ℤ) ∧ 0 ≤ j ∧ j < (w : ℤ) then
    x b ci ⟨i.toNat, by omega⟩ ⟨j.toNat, by omega⟩
  else 0

/-- `nn.Conv2d(cin, cout, kernel_size=k, stride=1, padding=p, bias=False)`.
Used with `2*p = k-1` (kernel sizes 7/3/1 with paddings 3/1/0), so the spatial
shape is preserved. -/
noncomputable def conv2d_same {n cin h w : ℕ} (cout k p : ℕ)
    (weight : Fin cout → Fin cin → Fin k → Fin k → ℝ) (x : Tensor4 n cin h w) :
    Tensor4 n cout h w :=
  fun b o y z => ∑ ci : Fin cin, ∑ dy : Fin k, ∑ dx : Fin k,
    weight o ci dy dx * getPad x b ci ((y : ℤ) + (dy : ℤ) - (p : ℤ)) ((z : ℤ) + (dx : ℤ) - (p : ℤ))

/-- `nn.Conv2d(cin, cout, kernel_size=4, stride=2, padding=1, bias=False)`:
the downsampling convolution, halving each spatial dimension. -/
noncomputable def conv2d_down {n cin h w : ℕ} (cout : ℕ)
    (weight : Fin cout → Fin cin → Fin 4 → Fin 4 → ℝ) (x : Tensor4 n cin h w) :
    Tensor4 n cout (h / 2) (w / 2) :=
  fun b o y z => ∑ ci : Fin cin, ∑ dy : Fin 4, ∑ dx : Fin 4,
    weight o ci dy dx * getPad x b ci (2 * (y : ℤ) + (dy : ℤ) - 1) (2 * (z : ℤ) + (dx : ℤ) - 1)

/-- Kernel lookup for the transposed convolution: weight at integer kernel
coordinates, `0` when the coordinate falls outside `[0, 4)`. -/
noncomputable def kernelAt {cin cout : ℕ} (weight : Fin cin → Fin cout → Fin 4 → Fin 4 → ℝ)
    (ci : Fin cin) (o : Fin cout) (a b : ℤ) : ℝ :=
  if hab : 0 ≤ a ∧ a < 4 ∧ 0 ≤ b ∧ b < 4 then
    weight ci o ⟨a.toNat, by omega⟩ ⟨b.toNat, by omega⟩
  else 0

/-- `nn.ConvTranspose2d(cin, cout, kernel_size=4, stride=2, padding=1,
bias=False)`: the upsampling convolution, doubling each spatial dimension.
Output position `(y, z)` receives `x[i][j] * W[dy][dx]` whenever
`y = 2*i + dy - 1` and `z = 2*j + dx - 1`. -/
noncomputable def conv_transpose2d {n cin h w : ℕ} (cout : ℕ)
    (weight : Fin cin → Fin cout → Fin 4 → Fin 4 → ℝ) (x : Tensor4 n cin h w) :
    Tensor4 n cout (2 * h) (2 * w) :=
  fun b o y z => ∑ ci : Fin cin, ∑ i : Fin h, ∑ j : Fin w,
    x b ci i j * kernelAt weight ci o ((y : ℤ) - 2 * (i : ℤ) + 1) ((z : ℤ) - 2 * (j : ℤ) + 1)

/-- `nn.InstanceNorm2d(c, affine)` in eval semantics: per-sample, per-channel
normalisation over the spatial extent with `eps = 1e-5` (the PyTorch default),
followed by the learned per-channel affine map when `affine` is set. -/
noncomputable def instance_norm {n c h w : ℕ} (affine : Bool) (weight bias : Fin c → ℝ)
    (x : Tensor4 n c h w) : Tensor4 n c h w :=
  fun b ci i j =>
    (x b ci i j - (∑ y : Fin h, ∑ z : Fin w, x b ci y z) / (h * w : ℝ)) /
        Real.sqrt ((∑ y : Fin h, ∑ z : Fin w,
            (x b ci y z - (∑ y : Fin h, ∑ z : Fin w, x b ci y z) / (h * w : ℝ)) ^ 2) /
          (h * w : ℝ) + 1e-5) *
      (if affine then weight ci else 1) + (if affine then bias ci else 0)

/-- `nn.ReLU`. -/
noncomputable def relu {n c h w : ℕ} (x : Tensor4 n c h w) : Tensor4 n c h w :=
  fun b ci i j => max (x b ci i j) 0

/-- `nn.Tanh`, applied elementwise. -/
noncomputable def tanh_map {n c h w : ℕ} (x : Tensor4 n c h w) : Tensor4 n c h w :=
  fun b ci i j => Real.tanh (x b ci i j)

/-- `F.interpolate(x, size=(hOut, wOut))` with the default `nearest` mode:
output pixel `(y, z)` copies input pixel `(⌊y*hIn/hOut⌋, ⌊z*wIn/wOut⌋)`. -/
noncomputable def interpNearest (hOut wOut : ℕ) {n c hIn wIn : ℕ} (x : Tensor4 n c hIn wIn) :
    Tensor4 n c hOut wOut :=
  fun b ci y z =>
    if hb : (y : ℕ) * hIn / hOut < hIn ∧ (z : ℕ) * wIn / wOut < wIn then
      x b ci ⟨(y : ℕ) * hIn / hOut, hb.1⟩ ⟨(z : ℕ) * wIn / wOut, hb.2⟩
    else 0

/-- Row-major flattening of spatial coordinates, as done by `Tensor.view`:
`(y, z) ↦ y*w + z`. -/
def flatIdx {h w : ℕ} (y : Fin h) (z : Fin w) : Fin (h * w) :=
  ⟨(y : ℕ) * w + (z : ℕ), by
    calc (y : ℕ) * w + (z : ℕ) < (y : ℕ) * w + w := by omega
      _ = ((y : ℕ) + 1) * w := by ring
      _ ≤ h * w := Nat.mul_le_mul_right w y.isLt⟩

/-- Inverse of `flatIdx`: recover the spatial coordinates of a flattened
position. -/
def unflatIdx (h w : ℕ) (p : Fin (h * w)) : Fin h × Fin w :=
  have hw : 0 < w := Nat.pos_of_ne_zero (fun h0 => Nat.not_lt_zero (p : ℕ)
    (by simpa [h0] using p.isLt))
  ⟨⟨(p : ℕ) / w, (Nat.div_lt_iff_lt_mul hw).mpr p.isLt⟩, ⟨(p : ℕ) % w, Nat.mod_lt _ hw⟩⟩

/-- `torch.sparse.FloatTensor(indices, values, size)` over a rank-3 shape
`(B, H, W)`: a set of coordinates together with the stored value at each
coordinate.  (The coordinates produced by `Tensor.nonzero()` are pairwise
distinct, so a set faithfully represents the index list.) -/
structure SparseFloatTensor (B H W : ℕ) where
  ind : Finset (Fin B × Fin H × Fin W)
  val : Fin B × Fin H × Fin W → ℝ

/-- `Tensor.to_dense()`: stored value at stored coordinates, `0` elsewhere. -/
noncomputable def SparseFloatTensor.toDense {B H W : ℕ} (t : SparseFloatTensor B H W) :
    Fin B → Fin H → Fin W → ℝ :=
  fun b i j => if (b, i, j) ∈ t.ind then t.val (b, i, j) else 0

/-- `NONLocalBlock2D`: owns a learned 1×1 convolution `g` (with bias), which its
`forward` never uses. -/
structure NONLocalBlock2D where
  g_weight : ℝ
  g_bias : ℝ

/-- `NONLocalBlock2D.forward(source, weight)`: flatten the single-channel
`source` to `(N, H*W, 1)`, batch-matrix-multiply by the densified `weight`, and
reshape back to `(N, 1, H, W)`. -/
noncomputable def NONLocalBlock2D.forward (_self : NONLocalBlock2D) {n h w : ℕ}
    (source : Tensor4 n 1 h w) (weight : SparseFloatTensor n (h * w) (h * w)) :
    Tensor4 n 1 h w :=
  let g_source : Fin n → Fin (h * w) → ℝ :=
    fun b p => source b 0 (unflatIdx h w p).1 (unflatIdx h w p).2
  let y : Fin n → Fin (h * w) → ℝ :=
    fun b i => ∑ j : Fin (h * w), weight.toDense b i j * g_source b j
  fun b _ yy zz => y b (flatIdx yy zz)

/-- `ResidualBlock(dim_in, dim_out, net_mode)`: two 3×3 stride-1 padding-1
convolutions without bias, each followed by `InstanceNorm2d(dim_out, affine=use_affine)`,
with a ReLU between them; `forward` adds the input.  `use_affine` records the
`net_mode` choice made at construction. -/
structure ResidualBlock (dim_in dim_out : ℕ) where
  use_affine : Bool
  conv1_w : Fin dim_out → Fin dim_in → Fin 3 → Fin 3 → ℝ
  norm1_w : Fin dim_out → ℝ
  norm1_b : Fin dim_out → ℝ
  conv2_w : Fin dim_out → Fin dim_out → Fin 3 → Fin 3 → ℝ
  norm2_w : Fin dim_out → ℝ
  norm2_b : Fin dim_out → ℝ

/-- The `net_mode` dispatch of `ResidualBlock.__init__`:
`'p'` or `None` select affine instance normalisation, `'t'` selects non-affine,
and any other mode leaves `use_affine` unassigned (no `else` branch). -/
def residual_use_affine (net_mode : Option String) : Option Bool :=
  if net_mode = some "p" ∨ net_mode = none then some true
  else if net_mode = some "t" then some false
  else none

/-- `ResidualBlock.__init__`: constructing the block with the given parameter
tensors.  When `net_mode` is unrecognised, `use_affine` was never assigned and
referencing it while building the first normalisation layer raises
`UnboundLocalError`, so no block is produced. -/
def ResidualBlock.build (dim_in dim_out : ℕ)
    (c1 : Fin dim_out → Fin dim_in → Fin 3 → Fin 3 → ℝ) (n1w n1b : Fin dim_out → ℝ)
    (c2 : Fin dim_out → Fin dim_out → Fin 3 → Fin 3 → ℝ) (n2w n2b : Fin dim_out → ℝ)
    (net_mode : Option String) : Except String (ResidualBlock dim_in dim_out) :=
  match residual_use_affine net_mode with
  | some ua => .ok ⟨ua, c1, n1w, n1b, c2, n2w, n2b⟩
  | none => .error "UnboundLocalError: use_affine referenced before assignment"

/-- `ResidualBlock.main`: the `conv → norm → ReLU → conv → norm` pipeline. -/
noncomputable def ResidualBlock.main {dim_in dim_out : ℕ} (B : ResidualBlock dim_in dim_out)
    {n h w : ℕ} (x : Tensor4 n dim_in h w) : Tensor4 n dim_out h w :=
  instance_norm B.use_affine B.norm2_w B.norm2_b
    (conv2d_same dim_out 3 1 B.conv2_w
      (relu (instance_norm B.use_affine B.norm1_w B.norm1_b
        (conv2d_same dim_out 3 1 B.conv1_w x))))

/-- `ResidualBlock.forward(x) = x + self.main(x)` (requires `dim_in = dim_out`). -/
noncomputable def ResidualBlock.forward {dim : ℕ} (B : ResidualBlock dim dim)
    {n h w : ℕ} (x : Tensor4 n dim h w) : Tensor4 n dim h w :=
  fun b ci i j => x b ci i j + B.main x b ci i j

/-- `GetMatrix(dim_in, dim_out)`: two independent 1×1 stride-1 convolutions
without bias producing the gamma and beta maps. -/
structure GetMatrix (dim_in dim_out : ℕ) where
  get_gamma : Fin dim_out → Fin dim_in → Fin 1 → Fin 1 → ℝ
  get_beta : Fin dim_out → Fin dim_in → Fin 1 → Fin 1 → ℝ

/-- `GetMatrix.forward(x) = (x, get_gamma(x), get_beta(x))`. -/
noncomputable def GetMatrix.forward {dim_in dim_out : ℕ} (m : GetMatrix dim_in dim_out)
    {n h w : ℕ} (x : Tensor4 n dim_in h w) :
    Tensor4 n dim_in h w × Tensor4 n dim_out h w × Tensor4 n dim_out h w :=
  (x, conv2d_same dim_out 1 0 m.get_gamma x, conv2d_same dim_out 1 0 m.get_beta x)

/-- One side's input to the correspondence computation of `Generator.get_weight`:
resize the mask to 64×64 and broadcast it over the 256 feature channels, replicate
the single-batch feature 3× (one slot per facial region), mask it, scale the
feature part by `0.01`, and concatenate the 136 difference channels, giving the
`(3, 256+136, 64, 64)` tensor that is flattened into the `bmm` operand.
(`torch.cat` along dim 1 requires the difference tensor to share the 64×64
spatial extent of the features.) -/
noncomputable def gw_part_input {hm wm : ℕ} (mask : Tensor4 3 1 hm wm)
    (fea : Tensor4 1 256 64 64) (diff : Tensor4 3 136 64 64) :
    Fin 3 → Fin (256 + 136) → Fin 64 → Fin 64 → ℝ :=
  let mask_re : Tensor4 3 256 64 64 := fun b _ y z => interpNearest 64 64 mask b 0 y z
  let fea3 : Tensor4 3 256 64 64 := fun _ c y z => fea 0 c y z
  let fea_m : Tensor4 3 256 64 64 := fun b c y z => fea3 b c y z * mask_re b c y z
  fun b ch y z =>
    if hc : (ch : ℕ) < 256 then fea_m b ⟨ch, hc⟩ y z * 0.01
    else diff b ⟨(ch : ℕ) - 256, by have := ch.isLt; omega⟩ y z

/-- The raw batched dot-product similarity matrix of `Generator.get_weight`
(`torch.bmm(theta_target, phi_source)`), before the `*= 200` sharpening and the
softmax: entry `(b, y, z)` is the inner product over the `256+136` channels of
the flattened content position `y` and style position `z`. -/
noncomputable def Generator.get_weight_presoft {hm wm : ℕ} (mask_c mask_s : Tensor4 3 1 hm wm)
    (fea_c fea_s : Tensor4 1 256 64 64) (diff_c diff_s : Tensor4 3 136 64 64) :
    Fin 3 → Fin (64 * 64) → Fin (64 * 64) → ℝ :=
  fun b y z => ∑ ch : Fin (256 + 136),
    gw_part_input mask_c fea_c diff_c b ch (unflatIdx 64 64 y).1 (unflatIdx 64 64 y).2 *
    gw_part_input mask_s fea_s diff_s b ch (unflatIdx 64 64 z).1 (unflatIdx 64 64 z).2

/-- The post-softmax weights of `Generator.get_weight`:
`F.softmax(200 * presoft, dim=-1)`. -/
noncomputable def Generator.get_weight_soft {hm wm : ℕ} (mask_c mask_s : Tensor4 3 1 hm wm)
    (fea_c fea_s : Tensor4 1 256 64 64) (diff_c diff_s : Tensor4 3 136 64 64) :
    Fin 3 → Fin (64 * 64) → Fin (64 * 64) → ℝ :=
  fun b y z =>
    Real.exp (200 * Generator.get_weight_presoft mask_c mask_s fea_c fea_s diff_c diff_s b y z) /
    ∑ z2 : Fin (64 * 64),
      Real.exp (200 * Generator.get_weight_presoft mask_c mask_s fea_c fea_s diff_c diff_s b y z2)

open Classical in
/-- `Generator.get_weight`: the sparse correspondence matrix.  The index set is
`weight.numpy().nonzero()` taken on the raw similarity matrix (before the
`*= 200` sharpening and the softmax), and the stored values are the
post-softmax entries gathered at exactly those coordinates. -/
noncomputable def Generator.get_weight {hm wm : ℕ} (mask_c mask_s : Tensor4 3 1 hm wm)
    (fea_c fea_s : Tensor4 1 256 64 64) (diff_c diff_s : Tensor4 3 136 64 64) :
    SparseFloatTensor 3 (64 * 64) (64 * 64) :=
  { ind := Finset.univ.filter (fun t : Fin 3 × Fin (64 * 64) × Fin (64 * 64) =>
      Generator.get_weight_presoft mask_c mask_s fea_c fea_s diff_c diff_s t.1 t.2.1 t.2.2 ≠ 0),
    val := fun t =>
      Generator.get_weight_soft mask_c mask_s fea_c fea_s diff_c diff_s t.1 t.2.1 t.2.2 }

/-- `Generator.atten_feature(mask_s, weight, gamma_s, beta_s, g, b)`: resize the
style mask to gamma's spatial extent, replicate the single-batch gamma/beta over
the 3 region slots, mask them, push each through the corresponding non-local
block with the shared correspondence matrix, and sum the 3 region slots back
into a single-batch pair. -/
noncomputable def Generator.atten_feature {hm wm h w : ℕ} (mask_s : Tensor4 3 1 hm wm)
    (weight : SparseFloatTensor 3 (h * w) (h * w)) (gamma_s beta_s : Tensor4 1 1 h w)
    (atten_module_g atten_module_b : NONLocalBlock2D) :
    Tensor4 1 1 h w × Tensor4 1 1 h w :=
  let mask_s_re : Tensor4 3 1 h w := interpNearest h w mask_s
  let gamma_s3 : Tensor4 3 1 h w := fun b c y z => gamma_s 0 c y z * mask_s_re b c y z
  let beta_s3 : Tensor4 3 1 h w := fun b c y z => beta_s 0 c y z * mask_s_re b c y z
  let gamma := atten_module_g.forward gamma_s3 weight
  let beta := atten_module_b.forward beta_s3 weight
  (fun _ c y z => gamma 0 c y z + gamma 1 c y z + gamma 2 c y z,
   fun _ c y z => beta 0 c y z + beta 1 c y z + beta 2 c y z)

/-- The bottleneck outputs returned or consumed at iteration `i == 3` of
`forward_atten`: single-channel 64×64 gamma/beta maps. -/
abbrev MakeupParam : Type := Tensor4 1 1 64 64

/-- `Generator`: all learned parameters of the two branches, with fields named
after the attributes set in `Generator.__init__`.  The bottleneck blocks are
indexed functions mirroring the `setattr(self, f'..._{i+1}', ...)` pattern:
index `i` holds the block named `..._{i+1}` in the source (the content branch
uses indices `0..5`, the style branch `0..2`). -/
structure Generator where
  pnet_in_conv : Fin 64 → Fin 3 → Fin 7 → Fin 7 → ℝ
  pnet_in_norm_w : Fin 64 → ℝ
  pnet_in_norm_b : Fin 64 → ℝ
  pnet_down_conv_1 : Fin 128 → Fin 64 → Fin 4 → Fin 4 → ℝ
  pnet_down_norm_w_1 : Fin 128 → ℝ
  pnet_down_norm_b_1 : Fin 128 → ℝ
  pnet_down_conv_2 : Fin 256 → Fin 128 → Fin 4 → Fin 4 → ℝ
  pnet_down_norm_w_2 : Fin 256 → ℝ
  pnet_down_norm_b_2 : Fin 256 → ℝ
  atten_bottleneck_g : NONLocalBlock2D
  atten_bottleneck_b : NONLocalBlock2D
  simple_spade : GetMatrix 256 1
  pnet_bottleneck : ℕ → ResidualBlock 256 256
  tnet_in_conv : Fin 64 → Fin 3 → Fin 7 → Fin 7 → ℝ
  tnet_down_conv_1 : Fin 128 → Fin 64 → Fin 4 → Fin 4 → ℝ
  tnet_down_conv_2 : Fin 256 → Fin 128 → Fin 4 → Fin 4 → ℝ
  tnet_bottleneck : ℕ → ResidualBlock 256 256
  tnet_up_conv_1 : Fin 256 → Fin 128 → Fin 4 → Fin 4 → ℝ
  tnet_up_conv_2 : Fin 128 → Fin 64 → Fin 4 → Fin 4 → ℝ
  tnet_out_conv : Fin 3 → Fin 64 → Fin 7 → Fin 7 → ℝ

/-- The result of `forward_atten`: either the early-returned `[gamma, beta]`
pair or the transformed image. -/
inductive GenOutput : Type
  | params (gamma beta : MakeupParam)
  | image (img : Tensor4 1 3 256 256)

/-- `true` exactly on the `[gamma, beta]` early-return result. -/
def GenOutput.isParams : GenOutput → Bool
  | .params _ _ => true
  | .image _ => false

/-- Events that abort the bottleneck loop: the `ret=True` early return, or the
`TypeError` Python raises at `c_tnet * (1 + gamma) + beta` when `gamma` was
supplied without `beta`. -/
inductive BotEarly : Type
  | ret (gamma beta : MakeupParam)
  | typeError

/-- The loop-carried state of the bottleneck stage of `forward_atten`:
the content features, the style features, and the (possibly not yet computed)
gamma/beta. -/
structure BotState where
  c_tnet : Tensor4 1 256 64 64
  s : Tensor4 1 256 64 64
  gamma : Option MakeupParam
  beta : Option MakeupParam

/-- Lines 226–228 of `forward_atten` (the `gamma is None` case of iteration 3):
`s, gamma, beta = simple_spade(s)`, `weight = get_weight(...)`,
`gamma, beta = atten_feature(...)`. -/
noncomputable def Generator.stage3_gamma_beta (G : Generator) {hm wm : ℕ}
    (mask_c mask_s : Tensor4 3 1 hm wm) (diff_c diff_s : Tensor4 3 136 64 64)
    (c_tnet s : Tensor4 1 256 64 64) : MakeupParam × MakeupParam :=
  let t := G.simple_spade.forward s
  Generator.atten_feature mask_s
    (Generator.get_weight mask_c mask_s c_tnet t.1 diff_c diff_s)
    t.2.1 t.2.2 G.atten_bottleneck_g G.atten_bottleneck_b

/-- `c_tnet = c_tnet * (1 + gamma) + beta`: the affine makeup modulation, with
the single-channel gamma/beta broadcast over the 256 content channels. -/
noncomputable def modulate (x : Tensor4 1 256 64 64) (gamma beta : MakeupParam) :
    Tensor4 1 256 64 64 :=
  fun b c y z => x b c y z * (1 + gamma 0 0 y z) + beta 0 0 y z

/-- The body of `for i in range(6)` in `forward_atten`: at `i == 3` compute (or
take) gamma/beta and modulate the content features — with the `ret=True` early
return and the `beta is None` failure — then run the style-branch residual
block when `gamma is None and i <= 2`, and always run the content-branch
residual block. -/
noncomputable def Generator.bottleneck_body (G : Generator) {hm wm : ℕ}
    (mask_c mask_s : Tensor4 3 1 hm wm) (diff_c diff_s : Tensor4 3 136 64 64)
    (ret : Bool) (st : BotState) (i : ℕ) : Except BotEarly BotState :=
  let step3 : Except BotEarly BotState :=
    if i = 3 then
      match st.gamma, st.beta with
      | none, _ =>
        let t := G.simple_spade.forward st.s
        let gb := G.stage3_gamma_beta mask_c mask_s diff_c diff_s st.c_tnet st.s
        if ret then .error (.ret gb.1 gb.2)
        else .ok ⟨modulate st.c_tnet gb.1 gb.2, t.1, some gb.1, some gb.2⟩
      | some g, some b => .ok { st with c_tnet := modulate st.c_tnet g b }
      | some _, none => .error .typeError
    else .ok st
  step3.bind fun st1 =>
    let st2 := if st1.gamma.isNone ∧ i ≤ 2 then
        { st1 with s := (G.pnet_bottleneck i).forward st1.s } else st1
    .ok { st2 with c_tnet := (G.tnet_bottleneck i).forward st2.c_tnet }

/-- The bottleneck stage of `forward_atten`: the six loop iterations in order,
short-circuiting on early return or error. -/
noncomputable def Generator.runBottleneck (G : Generator) {hm wm : ℕ}
    (mask_c mask_s : Tensor4 3 1 hm wm) (diff_c diff_s : Tensor4 3 136 64 64)
    (ret : Bool) (st0 : BotState) : Except BotEarly BotState :=
  let body := G.bottleneck_body mask_c mask_s diff_c diff_s ret
  (((((body st0 0).bind (fun st => body st 1)).bind (fun st => body st 2)).bind
    (fun st => body st 3)).bind (fun st => body st 4)).bind (fun st => body st 5)

/-- The content branch up to the bottleneck: `tnet_in_conv → tnet_in_spade →
tnet_in_relu`, then the two `tnet_down_conv → tnet_down_spade → tnet_down_relu`
stages (instance norms without affine parameters). -/
noncomputable def Generator.tnet_front (G : Generator) (c : Tensor4 1 3 256 256) :
    Tensor4 1 256 64 64 :=
  let c1 := relu (instance_norm false (fun _ => 1) (fun _ => 0)
    (conv2d_same 64 7 3 G.tnet_in_conv c))
  let c2 := relu (instance_norm false (fun _ => 1) (fun _ => 0)
    (conv2d_down 128 G.tnet_down_conv_1 c1))
  relu (instance_norm false (fun _ => 1) (fun _ => 0) (conv2d_down 256 G.tnet_down_conv_2 c2))

/-- The style branch up to the bottleneck: `pnet_in`, then the two `pnet_down`
stages (instance norms with affine parameters). -/
noncomputable def Generator.pnet_front (G : Generator) (s : Tensor4 1 3 256 256) :
    Tensor4 1 256 64 64 :=
  let s1 := relu (instance_norm true G.pnet_in_norm_w G.pnet_in_norm_b
    (conv2d_same 64 7 3 G.pnet_in_conv s))
  let s2 := relu (instance_norm true G.pnet_down_norm_w_1 G.pnet_down_norm_b_1
    (conv2d_down 128 G.pnet_down_conv_1 s1))
  relu (instance_norm true G.pnet_down_norm_w_2 G.pnet_down_norm_b_2
    (conv2d_down 256 G.pnet_down_conv_2 s2))

/-- The content branch after the bottleneck: the two `tnet_up_conv →
tnet_up_spade → tnet_up_relu` stages, then `tnet_out` (7×7 convolution to 3
channels followed by `Tanh`). -/
noncomputable def Generator.tnet_tail (G : Generator) (x : Tensor4 1 256 64 64) :
    Tensor4 1 3 256 256 :=
  let u1 := relu (instance_norm false (fun _ => 1) (fun _ => 0)
    (conv_transpose2d 128 G.tnet_up_conv_1 x))
  let u2 := relu (instance_norm false (fun _ => 1) (fun _ => 0)
    (conv_transpose2d 64 G.tnet_up_conv_2 u1))
  tanh_map (conv2d_same 3 7 3 G.tnet_out_conv u2)

/-- `Generator.forward_atten(c, s, mask_c, mask_s, diff_c, diff_s, gamma, beta,
ret)`.  The style image always passes through `pnet_in`; the rest of the style
branch runs only when `gamma is None` (its stale value is never read in mix
mode, so the mix-mode bottleneck state carries a zero placeholder for `s`). -/
noncomputable def Generator.forward_atten (G : Generator) {hm wm : ℕ}
    (c s : Tensor4 1 3 256 256) (mask_c mask_s : Tensor4 3 1 hm wm)
    (diff_c diff_s : Tensor4 3 136 64 64) (gamma beta : Option MakeupParam)
    (ret : Bool) : Except String GenOutput :=
  let c_tnet := G.tnet_front c
  let s_bot : Tensor4 1 256 64 64 := if gamma.isNone then G.pnet_front s else 0
  match G.runBottleneck mask_c mask_s diff_c diff_s ret ⟨c_tnet, s_bot, gamma, beta⟩ with
  | .error (.ret g b) => .ok (.params g b)
  | .error .typeError =>
      .error "TypeError: unsupported operand type for add: Tensor and NoneType"
  | .ok st => .ok (.image (G.tnet_tail st.c_tnet))

/-- The content features entering bottleneck iteration 3: the first three
content-branch residual blocks applied to the downsampled content. -/
noncomputable def Generator.tnet_stage3 (G : Generator) (c : Tensor4 1 256 64 64) :
    Tensor4 1 256 64 64 :=
  (G.tnet_bottleneck 2).forward ((G.tnet_bottleneck 1).forward ((G.tnet_bottleneck 0).forward c))

/-- The style features entering bottleneck iteration 3: the three style-branch
residual blocks applied to the downsampled style. -/
noncomputable def Generator.pnet_stage3 (G : Generator) (s : Tensor4 1 256 64 64) :
    Tensor4 1 256 64 64 :=
  (G.pnet_bottleneck 2).forward ((G.pnet_bottleneck 1).forward ((G.pnet_bottleneck 0).forward s))

/-- The last three content-branch residual blocks (indices 3, 4, 5). -/
noncomputable def Generator.tnet_stage456 (G : Generator) (x : Tensor4 1 256 64 64) :
    Tensor4 1 256 64 64 :=
  (G.tnet_bottleneck 5).forward ((G.tnet_bottleneck 4).forward ((G.tnet_bottleneck 3).forward x))

/-! ### Helper lemmas -/

/-- `Real.tanh` is bounded above by `1`. -/
lemma tanh_le_one (x : ℝ) : Real.tanh x ≤ 1 := by
  rw [Real.tanh_eq_sinh_div_cosh]
  exact le_of_lt ((div_lt_one (Real.cosh_pos x)).mpr (Real.sinh_lt_cosh x))

/-- `Real.tanh` is bounded below by `-1`. -/
lemma neg_one_le_tanh (x : ℝ) : -1 ≤ Real.tanh x := by
  have h := tanh_le_one (-x)
  rw [Real.tanh_neg] at h
  linarith

/-- Mix/test mode reduction of the bottleneck loop: with `gamma` and `beta`
both supplied, only the six content-branch residual blocks run, with the single
modulation before block index 3; the style slot, the masks and the difference
tensors are never consulted. -/
lemma runBottleneck_mix (G : Generator) {hm wm : ℕ} (mask_c mask_s : Tensor4 3 1 hm wm)
    (diff_c diff_s : Tensor4 3 136 64 64) (ret : Bool) (c s : Tensor4 1 256 64 64)
    (g b : MakeupParam) :
    G.runBottleneck mask_c mask_s diff_c diff_s ret ⟨c, s, some g, some b⟩ =
      .ok ⟨G.tnet_stage456 (modulate (G.tnet_stage3 c) g b), s, some g, some b⟩ := rfl

/-- Training-mode reduction of the bottleneck loop with `ret = false`: the
style branch runs its three residual blocks, gamma/beta are computed at
iteration 3 from the stage-3 content and style features, and the content is
modulated exactly once, before block index 3. -/
lemma runBottleneck_train (G : Generator) {hm wm : ℕ} (mask_c mask_s : Tensor4 3 1 hm wm)
    (diff_c diff_s : Tensor4 3 136 64 64) (c s : Tensor4 1 256 64 64)
    (betaArg : Option MakeupParam) :
    G.runBottleneck mask_c mask_s diff_c diff_s false ⟨c, s, none, betaArg⟩ =
      .ok ⟨G.tnet_stage456 (modulate (G.tnet_stage3 c)
          (G.stage3_gamma_beta mask_c mask_s diff_c diff_s (G.tnet_stage3 c) (G.pnet_stage3 s)).1
          (G.stage3_gamma_beta mask_c mask_s diff_c diff_s (G.tnet_stage3 c) (G.pnet_stage3 s)).2),
        G.pnet_stage3 s,
        some (G.stage3_gamma_beta mask_c mask_s diff_c diff_s (G.tnet_stage3 c)
          (G.pnet_stage3 s)).1,
        some (G.stage3_gamma_beta mask_c mask_s diff_c diff_s (G.tnet_stage3 c)
          (G.pnet_stage3 s)).2⟩ := rfl

/-- Training-mode reduction of the bottleneck loop with `ret = true`: the loop
aborts at iteration 3 with the computed gamma/beta pair. -/
lemma runBottleneck_train_ret (G : Generator) {hm wm : ℕ} (mask_c mask_s : Tensor4 3 1 hm wm)
    (diff_c diff_s : Tensor4 3 136 64 64) (c s : Tensor4 1 256 64 64)
    (betaArg : Option MakeupParam) :
    G.runBottleneck mask_c mask_s diff_c diff_s true ⟨c, s, none, betaArg⟩ =
      .error (.ret
        (G.stage3_gamma_beta mask_c mask_s diff_c diff_s (G.tnet_stage3 c) (G.pnet_stage3 s)).1
        (G.stage3_gamma_beta mask_c mask_s diff_c diff_s (G.tnet_stage3 c)
          (G.pnet_stage3 s)).2) := rfl

/-- An all-zero residual block (affine mode), used for concrete evaluations. -/
noncomputable def zeroResidual : ResidualBlock 256 256 :=
  ⟨true, fun _ _ _ _ => 0, fun _ => 0, fun _ => 0, fun _ _ _ _ => 0, fun _ => 0, fun _ => 0⟩

/-- A generator whose learned parameters are all zero, used for concrete
evaluations. -/
noncomputable def zeroGenerator : Generator where
  pnet_in_conv := fun _ _ _ _ => 0
  pnet_in_norm_w := fun _ => 0
  pnet_in_norm_b := fun _ => 0
  pnet_down_conv_1 := fun _ _ _ _ => 0
  pnet_down_norm_w_1 := fun _ => 0
  pnet_down_norm_b_1 := fun _ => 0
  pnet_down_conv_2 := fun _ _ _ _ => 0
  pnet_down_norm_w_2 := fun _ => 0
  pnet_down_norm_b_2 := fun _ => 0
  atten_bottleneck_g := ⟨0, 0⟩
  atten_bottleneck_b := ⟨0, 0⟩
  simple_spade := ⟨fun _ _ _ _ => 0, fun _ _ _ _ => 0⟩
  pnet_bottleneck := fun _ => zeroResidual
  tnet_in_conv := fun _ _ _ _ => 0
  tnet_down_conv_1 := fun _ _ _ _ => 0
  tnet_down_conv_2 := fun _ _ _ _ => 0
  tnet_bottleneck := fun _ => zeroResidual
  tnet_up_conv_1 := fun _ _ _ _ => 0
  tnet_up_conv_2 := fun _ _ _ _ => 0
  tnet_out_conv := fun _ _ _ _ => 0

/-! ### Claims -/

/-- C2: in mix/test mode (`gamma` and `beta` supplied, `ret = False`) the
output of `forward_atten` depends only on the content image and the supplied
gamma/beta: two runs with the same content and gamma/beta but arbitrary
(possibly differently shaped) style image, masks and difference tensors return
identical results. -/
theorem forward_atten_mix_depends_only_on_content (G : Generator)
    (c : Tensor4 1 3 256 256) (g b : MakeupParam) {hm wm hm2 wm2 : ℕ}
    (s s2 : Tensor4 1 3 256 256) (mask_c mask_s : Tensor4 3 1 hm wm)
    (mask_c2 mask_s2 : Tensor4 3 1 hm2 wm2) (diff_c diff_s diff_c2 diff_s2 : Tensor4 3 136 64 64) :
    G.forward_atten c s mask_c mask_s diff_c diff_s (some g) (some b) false =
      G.forward_atten c s2 mask_c2 mask_s2 diff_c2 diff_s2 (some g) (some b) false := by
  simp only [Generator.forward_atten, runBottleneck_mix]

/-- C3 counterexample: with `ret = True` but `gamma` supplied, `forward_atten`
does **not** return the `[gamma, beta]` pair — the early return sits inside the
`gamma is None` branch, so the full pipeline runs and an image is returned. -/
theorem forward_atten_ret_with_gamma_returns_image :
    Except.map GenOutput.isParams
      (zeroGenerator.forward_atten 0 0 (0 : Tensor4 3 1 64 64) 0 0 0 (some 0) (some 0) true) =
    Except.ok false := rfl

/-- C3 (amended): for every invocation of `forward_atten` with `ret = True`
**and `gamma = None`**, the return value is exactly the pair `[gamma, beta]` of
content-aligned makeup parameters, and no pipeline stage after the gamma/beta
computation is executed: the result is unchanged under arbitrary replacement of
the content-branch bottleneck blocks of index ≥ 3, the upsampling convolutions
and the output convolution. -/
theorem forward_atten_ret_early_return (G : Generator) (B : ℕ → ResidualBlock 256 256)
    (U1 : Fin 256 → Fin 128 → Fin 4 → Fin 4 → ℝ) (U2 : Fin 128 → Fin 64 → Fin 4 → Fin 4 → ℝ)
    (OW : Fin 3 → Fin 64 → Fin 7 → Fin 7 → ℝ) {hm wm : ℕ}
    (c s : Tensor4 1 3 256 256) (mask_c mask_s : Tensor4 3 1 hm wm)
    (diff_c diff_s : Tensor4 3 136 64 64) (betaArg : Option MakeupParam) :
    Generator.forward_atten
      { G with tnet_bottleneck := fun n => if n ≤ 2 then G.tnet_bottleneck n else B n,
               tnet_up_conv_1 := U1, tnet_up_conv_2 := U2, tnet_out_conv := OW }
      c s mask_c mask_s diff_c diff_s none betaArg true =
    .ok (.params
      (G.stage3_gamma_beta mask_c mask_s diff_c diff_s (G.tnet_stage3 (G.tnet_front c))
        (G.pnet_stage3 (G.pnet_front s))).1
      (G.stage3_gamma_beta mask_c mask_s diff_c diff_s (G.tnet_stage3 (G.tnet_front c))
        (G.pnet_stage3 (G.pnet_front s))).2) := rfl

/-- C4: with well-typed inputs, `gamma = None` and `ret = False`,
`forward_atten` returns an image of the content shape `(1, 3, 256, 256)` whose
entries all lie in `[-1, 1]` (final `Tanh`).  (The hard-coded 64×64 attention
and the 3-slot mask broadcast make batch 1 and 256×256 the only well-typed
image shape in this mode, which the embedding enforces by typing.) -/
theorem forward_atten_output_bounded (G : Generator) {hm wm : ℕ}
    (c s : Tensor4 1 3 256 256) (mask_c mask_s : Tensor4 3 1 hm wm)
    (diff_c diff_s : Tensor4 3 136 64 64) (betaArg : Option MakeupParam) :
    ∃ img : Tensor4 1 3 256 256,
      G.forward_atten c s mask_c mask_s diff_c diff_s none betaArg false =
        .ok (.image img) ∧
      ∀ b ch y z, -1 ≤ img b ch y z ∧ img b ch y z ≤ 1 := by
  refine ⟨G.tnet_tail (G.tnet_stage456 (modulate (G.tnet_stage3 (G.tnet_front c))
    (G.stage3_gamma_beta mask_c mask_s diff_c diff_s (G.tnet_stage3 (G.tnet_front c))
      (G.pnet_stage3 (G.pnet_front s))).1
    (G.stage3_gamma_beta mask_c mask_s diff_c diff_s (G.tnet_stage3 (G.tnet_front c))
      (G.pnet_stage3 (G.pnet_front s))).2)), rfl, ?_⟩
  intro b ch y z
  simp only [Generator.tnet_tail, tanh_map]
  exact ⟨neg_one_le_tanh _, tanh_le_one _⟩

/-- C5: in the bottleneck loop, the style modulation
`content = content * (1 + gamma) + beta` is injected exactly once, at iteration
index 3, before the content residual block of index 3: the loop's result equals
blocks 0–2, then the single modulation (with gamma/beta either computed via
`simple_spade`/`get_weight`/`atten_feature` when `gamma` was `None`, or the
supplied pair), then blocks 3–5; no other iteration touches gamma/beta. -/
theorem bottleneck_modulates_exactly_once_at_index3 (G : Generator) {hm wm : ℕ}
    (mask_c mask_s : Tensor4 3 1 hm wm) (diff_c diff_s : Tensor4 3 136 64 64)
    (c s : Tensor4 1 256 64 64) (betaArg : Option MakeupParam) (g b : MakeupParam)
    (ret : Bool) :
    G.runBottleneck mask_c mask_s diff_c diff_s false ⟨c, s, none, betaArg⟩ =
      .ok ⟨G.tnet_stage456 (modulate (G.tnet_stage3 c)
          (G.stage3_gamma_beta mask_c mask_s diff_c diff_s (G.tnet_stage3 c) (G.pnet_stage3 s)).1
          (G.stage3_gamma_beta mask_c mask_s diff_c diff_s (G.tnet_stage3 c) (G.pnet_stage3 s)).2),
        G.pnet_stage3 s,
        some (G.stage3_gamma_beta mask_c mask_s diff_c diff_s (G.tnet_stage3 c)
          (G.pnet_stage3 s)).1,
        some (G.stage3_gamma_beta mask_c mask_s diff_c diff_s (G.tnet_stage3 c)
          (G.pnet_stage3 s)).2⟩ ∧
    G.runBottleneck mask_c mask_s diff_c diff_s ret ⟨c, s, some g, some b⟩ =
      .ok ⟨G.tnet_stage456 (modulate (G.tnet_stage3 c) g b), s, some g, some b⟩ :=
  ⟨runBottleneck_train G mask_c mask_s diff_c diff_s c s betaArg,
   runBottleneck_mix G mask_c mask_s diff_c diff_s ret c s g b⟩

/-- A convolution with all-zero weights outputs the zero tensor. -/
lemma conv2d_same_zero_w {n cin h w : ℕ} (cout k p : ℕ)
    (W : Fin cout → Fin cin → Fin k → Fin k → ℝ) (hW : ∀ o i a b, W o i a b = 0)
    (x : Tensor4 n cin h w) : conv2d_same cout k p W x = fun _ _ _ _ => 0 := by
  funext b o y z
  simp [conv2d_same, hW]

/-- Instance normalisation of the zero tensor: the normalised value is zero, so
only the affine shift survives. -/
lemma instance_norm_zero {n c h w : ℕ} (affine : Bool) (weight bias : Fin c → ℝ) :
    instance_norm affine weight bias (fun _ _ _ _ => (0 : ℝ) : Tensor4 n c h w) =
      fun _ ci _ _ => if affine then bias ci else 0 := by
  funext b ci i j
  simp [instance_norm]

/-- C7: `NONLocalBlock2D.forward` is exactly the reshape of the batch matrix
product of the densified weight with the flattened source — each output
position is the weighted sum over all source positions with weights from the
corresponding row of the correspondence matrix — and is independent of the
block's learned 1×1 convolution `g`. -/
theorem nonlocal_forward_is_weighted_sum {n h w : ℕ} (m m2 : NONLocalBlock2D)
    (source : Tensor4 n 1 h w) (weight : SparseFloatTensor n (h * w) (h * w))
    (b : Fin n) (c : Fin 1) (y : Fin h) (z : Fin w) :
    m.forward source weight b c y z =
      (∑ j : Fin (h * w), weight.toDense b (flatIdx y z) j *
        source b 0 (unflatIdx h w j).1 (unflatIdx h w j).2) ∧
    m.forward source weight = m2.forward source weight :=
  ⟨rfl, rfl⟩

/-- C8: `Generator.atten_feature` returns a single-batch `(1, C, H, W)` pair
whose gamma (resp. beta) is the element-wise sum over the three region slots of
the non-local block applied, with the shared correspondence matrix, to the
mask-weighted 3-way-replicated `gamma_s` (resp. `beta_s`). -/
theorem atten_feature_sums_masked_nonlocal_slots {hm wm h w : ℕ}
    (mask_s : Tensor4 3 1 hm wm) (weight : SparseFloatTensor 3 (h * w) (h * w))
    (gamma_s beta_s : Tensor4 1 1 h w) (mg mb : NONLocalBlock2D)
    (c : Fin 1) (y : Fin h) (z : Fin w) :
    (Generator.atten_feature mask_s weight gamma_s beta_s mg mb).1 0 c y z =
      (∑ k : Fin 3, ∑ j : Fin (h * w), weight.toDense k (flatIdx y z) j *
        (gamma_s 0 0 (unflatIdx h w j).1 (unflatIdx h w j).2 *
          interpNearest h w mask_s k 0 (unflatIdx h w j).1 (unflatIdx h w j).2)) ∧
    (Generator.atten_feature mask_s weight gamma_s beta_s mg mb).2 0 c y z =
      (∑ k : Fin 3, ∑ j : Fin (h * w), weight.toDense k (flatIdx y z) j *
        (beta_s 0 0 (unflatIdx h w j).1 (unflatIdx h w j).2 *
          interpNearest h w mask_s k 0 (unflatIdx h w j).1 (unflatIdx h w j).2)) := by
  constructor
  · rw [Fin.sum_univ_three]; rfl
  · rw [Fin.sum_univ_three]; rfl

/-- C9 counterexample data: a residual block with all convolution weights zero
but affine normalisation with bias `1` in the second norm. -/
noncomputable def biasedResidual : ResidualBlock 1 1 :=
  ⟨true, fun _ _ _ _ => 0, fun _ => 0, fun _ => 0, fun _ _ _ _ => 0, fun _ => 0, fun _ => 1⟩

/-- C9 counterexample input: the zero `(1, 1, 1, 1)` tensor. -/
noncomputable def zeroInput1111 : Tensor4 1 1 1 1 := fun _ _ _ _ => 0

/-- C9 counterexample: zero convolution weights alone do **not** make
`ResidualBlock.forward` the identity — with affine instance normalisation, the
second norm's bias is added back to the zero feature map and survives into the
residual sum. -/
theorem residual_zero_conv_not_identity :
    ResidualBlock.forward biasedResidual zeroInput1111 0 0 0 0 ≠ zeroInput1111 0 0 0 0 := by
  have hmain : biasedResidual.main zeroInput1111 = fun _ _ _ _ => (1 : ℝ) := by
    unfold ResidualBlock.main
    rw [conv2d_same_zero_w 1 3 1 biasedResidual.conv2_w (fun _ _ _ _ => rfl), instance_norm_zero]
    rfl
  simp only [ResidualBlock.forward, hmain, zeroInput1111]
  norm_num

/-- C9 (amended): `ResidualBlock.forward` returns its input plus the
`conv → norm → ReLU → conv → norm` pipeline output, and when all internal
convolution weights are zero **and the instance norms are non-affine or carry a
zero shift (bias)** the output equals the input. -/
theorem residual_forward_structure_and_zero_weight_identity {dim n h w : ℕ}
    (B : ResidualBlock dim dim) (x : Tensor4 n dim h w)
    (h1 : ∀ o i a b, B.conv1_w o i a b = 0) (h2 : ∀ o i a b, B.conv2_w o i a b = 0)
    (h3 : B.use_affine = true → ∀ ci, B.norm2_b ci = 0) :
    (∀ y : Tensor4 n dim h w, B.forward y = fun b ci i j => y b ci i j + B.main y b ci i j) ∧
    B.forward x = x := by
  refine ⟨fun y => rfl, ?_⟩
  have hmain : B.main x = fun _ _ _ _ => (0 : ℝ) := by
    unfold ResidualBlock.main
    rw [conv2d_same_zero_w dim 3 1 B.conv2_w h2, instance_norm_zero]
    funext b ci i j
    cases haff : B.use_affine with
    | false => simp
    | true => simp [h3 haff ci]
  funext b ci i j
  simp only [ResidualBlock.forward, hmain]
  simp

/-- C9 witness block: all-zero parameters, affine mode. -/
noncomputable def zeroParamResidual : ResidualBlock 1 1 :=
  ⟨true, fun _ _ _ _ => 0, fun _ => 0, fun _ => 0, fun _ _ _ _ => 0, fun _ => 0, fun _ => 0⟩

/-- C9 witness input: the constant-3 `(1, 1, 1, 1)` tensor. -/
noncomputable def constInput1111 : Tensor4 1 1 1 1 := fun _ _ _ _ => 3

/-- C9 witness: the amended identity instantiated at a concrete zero-weight,
zero-bias block and a concrete nonzero input. -/
theorem residual_zero_weight_identity_witness :
    ResidualBlock.forward zeroParamResidual constInput1111 = constInput1111 :=
  (residual_forward_structure_and_zero_weight_identity zeroParamResidual constInput1111
    (fun _ _ _ _ => rfl) (fun _ _ _ _ => rfl) (fun _ ci => rfl)).2

/-- C10: `ResidualBlock` construction dispatches on `net_mode`: `'p'` and
`None` yield affine instance normalisation, `'t'` yields non-affine, and any
other mode fails (the `use_affine` local is never assigned, so building the
first normalisation layer raises `UnboundLocalError`); construction never
silently defaults. -/
theorem residual_build_mode_dispatch (dim_in dim_out : ℕ)
    (c1 : Fin dim_out → Fin dim_in → Fin 3 → Fin 3 → ℝ) (n1w n1b : Fin dim_out → ℝ)
    (c2 : Fin dim_out → Fin dim_out → Fin 3 → Fin 3 → ℝ) (n2w n2b : Fin dim_out → ℝ) :
    ResidualBlock.build dim_in dim_out c1 n1w n1b c2 n2w n2b (some "p") =
      .ok ⟨true, c1, n1w, n1b, c2, n2w, n2b⟩ ∧
    ResidualBlock.build dim_in dim_out c1 n1w n1b c2 n2w n2b none =
      .ok ⟨true, c1, n1w, n1b, c2, n2w, n2b⟩ ∧
    ResidualBlock.build dim_in dim_out c1 n1w n1b c2 n2w n2b (some "t") =
      .ok ⟨false, c1, n1w, n1b, c2, n2w, n2b⟩ ∧
    ∀ m : Option String, m ≠ some "p" → m ≠ some "t" → m ≠ none →
      ResidualBlock.build dim_in dim_out c1 n1w n1b c2 n2w n2b m =
        .error "UnboundLocalError: use_affine referenced before assignment" := by
  refine ⟨rfl, rfl, rfl, ?_⟩
  intro m h1 h2 h3
  simp [ResidualBlock.build, residual_use_affine, h1, h2, h3]

/-- C10 witness: an unrecognised mode string fails at construction. -/
theorem residual_build_bad_mode_witness :
    ResidualBlock.build 1 1 (fun _ _ _ _ => 0) (fun _ => 0) (fun _ => 0)
      (fun _ _ _ _ => 0) (fun _ => 0) (fun _ => 0) (some "x") =
    .error "UnboundLocalError: use_affine referenced before assignment" :=
  (residual_build_mode_dispatch 1 1 (fun _ _ _ _ => 0) (fun _ => 0) (fun _ => 0)
    (fun _ _ _ _ => 0) (fun _ => 0) (fun _ => 0)).2.2.2 (some "x")
    (by decide) (by decide) (by decide)

/-- Every post-softmax weight of `get_weight` is strictly positive. -/
lemma get_weight_soft_pos {hm wm : ℕ} (mask_c mask_s : Tensor4 3 1 hm wm)
    (fea_c fea_s : Tensor4 1 256 64 64) (diff_c diff_s : Tensor4 3 136 64 64)
    (b : Fin 3) (y z : Fin (64 * 64)) :
    0 < Generator.get_weight_soft mask_c mask_s fea_c fea_s diff_c diff_s b y z := by
  unfold Generator.get_weight_soft
  exact div_pos (Real.exp_pos _)
    (Finset.sum_pos (fun i _ => Real.exp_pos _) Finset.univ_nonempty)

open Classical in
/-- Pointwise characterisation of the densified sparse result of `get_weight`:
the post-softmax value where the pre-softmax similarity is nonzero, `0` where
it is zero. -/
lemma get_weight_toDense {hm wm : ℕ} (mask_c mask_s : Tensor4 3 1 hm wm)
    (fea_c fea_s : Tensor4 1 256 64 64) (diff_c diff_s : Tensor4 3 136 64 64)
    (b : Fin 3) (y z : Fin (64 * 64)) :
    (Generator.get_weight mask_c mask_s fea_c fea_s diff_c diff_s).toDense b y z =
      if Generator.get_weight_presoft mask_c mask_s fea_c fea_s diff_c diff_s b y z = 0 then 0
      else Generator.get_weight_soft mask_c mask_s fea_c fea_s diff_c diff_s b y z := by
  by_cases hp : Generator.get_weight_presoft mask_c mask_s fea_c fea_s diff_c diff_s b y z = 0
  · simp [SparseFloatTensor.toDense, Generator.get_weight, hp]
  · simp [SparseFloatTensor.toDense, Generator.get_weight, hp]

/-- The raw similarity matrix vanishes identically on all-zero features and
difference tensors (the masks are immaterial there). -/
lemma get_weight_presoft_zero_input (b : Fin 3) (y z : Fin (64 * 64)) :
    Generator.get_weight_presoft (0 : Tensor4 3 1 64 64) 0 0 0 0 0 b y z = 0 := by
  unfold Generator.get_weight_presoft gw_part_input
  simp

/-- C6: the sparse tensor built by `get_weight` takes its index set from the
nonzero structure of the pre-softmax similarity matrix and its stored values
from the post-softmax entries at exactly those coordinates: densified, a
coordinate with zero pre-softmax similarity reads `0` — it is structurally
absent even though its post-softmax value would be strictly positive — and a
coordinate with nonzero pre-softmax similarity reads the post-softmax value. -/
theorem get_weight_index_presoft_values_softmax {hm wm : ℕ}
    (mask_c mask_s : Tensor4 3 1 hm wm) (fea_c fea_s : Tensor4 1 256 64 64)
    (diff_c diff_s : Tensor4 3 136 64 64) (b : Fin 3) (y z : Fin (64 * 64)) :
    (Generator.get_weight_presoft mask_c mask_s fea_c fea_s diff_c diff_s b y z = 0 →
      (Generator.get_weight mask_c mask_s fea_c fea_s diff_c diff_s).toDense b y z = 0) ∧
    (Generator.get_weight_presoft mask_c mask_s fea_c fea_s diff_c diff_s b y z ≠ 0 →
      (Generator.get_weight mask_c mask_s fea_c fea_s diff_c diff_s).toDense b y z =
        Generator.get_weight_soft mask_c mask_s fea_c fea_s diff_c diff_s b y z) ∧
    0 < Generator.get_weight_soft mask_c mask_s fea_c fea_s diff_c diff_s b y z := by
  refine ⟨fun hp => ?_, fun hp => ?_,
    get_weight_soft_pos mask_c mask_s fea_c fea_s diff_c diff_s b y z⟩
  · rw [get_weight_toDense]; simp [hp]
  · rw [get_weight_toDense]; simp [hp]

/-- C6 witness: on all-zero inputs every pre-softmax similarity is zero, so the
densified sparse tensor is zero at (0,0,0) even though the softmax value there
would be positive. -/
theorem get_weight_index_presoft_witness :
    (Generator.get_weight (0 : Tensor4 3 1 64 64) 0 0 0 0 0).toDense 0 0 0 = 0 :=
  (get_weight_index_presoft_values_softmax (0 : Tensor4 3 1 64 64) 0 0 0 0 0 0 0 0).1
    (get_weight_presoft_zero_input 0 0 0)

/-- C1 counterexample: on the (well-typed) all-zero masks, features and
difference tensors, every row of the densified correspondence matrix sums to
`0`, not `1` — rows whose pre-softmax entries are all zero retain nothing. -/
theorem get_weight_zero_input_row_not_stochastic :
    (∑ z : Fin (64 * 64),
      (Generator.get_weight (0 : Tensor4 3 1 64 64) 0 0 0 0 0).toDense 0 0 z) ≠ 1 := by
  have h0 : ∀ z : Fin (64 * 64),
      (Generator.get_weight (0 : Tensor4 3 1 64 64) 0 0 0 0 0).toDense 0 0 z = 0 := by
    intro z
    rw [get_weight_toDense]
    simp [get_weight_presoft_zero_input 0 0 z]
  rw [Finset.sum_congr rfl (fun z _ => h0 z), Finset.sum_const_zero]
  exact zero_ne_one

/-- C1 (amended): a row of the densified correspondence matrix all of whose
pre-softmax similarities are nonzero (so that every entry is retained) sums to
`1` — the softmax normalisation property.  Rows with dropped (zero pre-softmax)
entries retain strictly less than the full softmax mass, as the counterexample
shows. -/
theorem get_weight_full_row_sums_to_one {hm wm : ℕ} (mask_c mask_s : Tensor4 3 1 hm wm)
    (fea_c fea_s : Tensor4 1 256 64 64) (diff_c diff_s : Tensor4 3 136 64 64)
    (b : Fin 3) (y : Fin (64 * 64))
    (hall : ∀ z : Fin (64 * 64),
      Generator.get_weight_presoft mask_c mask_s fea_c fea_s diff_c diff_s b y z ≠ 0) :
    ∑ z : Fin (64 * 64),
      (Generator.get_weight mask_c mask_s fea_c fea_s diff_c diff_s).toDense b y z = 1 := by
  have hz : ∀ z : Fin (64 * 64),
      (Generator.get_weight mask_c mask_s fea_c fea_s diff_c diff_s).toDense b y z =
        Generator.get_weight_soft mask_c mask_s fea_c fea_s diff_c diff_s b y z := by
    intro z
    rw [get_weight_toDense]
    simp [hall z]
  rw [Finset.sum_congr rfl (fun z _ => hz z)]
  unfold Generator.get_weight_soft
  rw [← Finset.sum_div]
  exact div_self (ne_of_gt (Finset.sum_pos (fun i _ => Real.exp_pos _) Finset.univ_nonempty))

/-- On all-ones masks, features and difference tensors, each channel of the
flattened `bmm` operand is `0.01` (a masked feature channel) or `1` (a
difference channel). -/
lemma gw_part_input_ones (b : Fin 3) (ch : Fin (256 + 136)) (p q : Fin 64) :
    gw_part_input (fun _ _ _ _ => 1 : Tensor4 3 1 64 64) (fun _ _ _ _ => 1)
      (fun _ _ _ _ => 1) b ch p q = if (ch : ℕ) < 256 then 0.01 else 1 := by
  have hp : ((p : ℕ) * 64 / 64 < 64 ∧ (q : ℕ) * 64 / 64 < 64) := by
    constructor <;> [skip; skip] <;>
      simp [Nat.mul_div_cancel _ (by norm_num : (0:ℕ) < 64), p.isLt, q.isLt]
  simp only [gw_part_input]
  by_cases hc : (ch : ℕ) < 256
  · rw [dif_pos hc, if_pos hc]
    simp [interpNearest, hp]
  · rw [dif_neg hc, if_neg hc]

/-- C1 witness: with all-ones masks, features and difference tensors every
pre-softmax similarity is positive, all entries of row `(0, 0)` are retained,
and the densified row sums to `1`. -/
theorem get_weight_row_sum_one_witness :
    ∑ z : Fin (64 * 64),
      (Generator.get_weight (fun _ _ _ _ => 1 : Tensor4 3 1 64 64) (fun _ _ _ _ => 1)
        (fun _ _ _ _ => 1) (fun _ _ _ _ => 1) (fun _ _ _ _ => 1)
        (fun _ _ _ _ => 1)).toDense 0 0 z = 1 :=
  get_weight_full_row_sums_to_one (fun _ _ _ _ => 1) (fun _ _ _ _ => 1) (fun _ _ _ _ => 1)
    (fun _ _ _ _ => 1) (fun _ _ _ _ => 1) (fun _ _ _ _ => 1) 0 0 (by
      intro z
      unfold Generator.get_weight_presoft
      refine ne_of_gt (Finset.sum_pos (fun ch _ => ?_) Finset.univ_nonempty)
      rw [gw_part_input_ones, gw_part_input_ones]
      by_cases hc : (ch : ℕ) < 256 <;> simp [hc] <;> norm_num)
